import Mathlib

/-!
Verification development for the `genkitx-langfuse` repository.

The repository implements an OpenTelemetry span exporter that converts
Genkit spans into Langfuse observability records (traces, generations,
spans).  The definitions below are a shallow embedding of the code in
`src/exporter.ts` and `src/metadata-extractor.ts`:

* `AttrValue`, `Span` model OpenTelemetry `ReadableSpan`s and their
  attribute bags (string keys to scalar values);
* `Json` and `jsonParse` model the JavaScript `JSON.parse` builtin on the
  fragment the code exercises (objects, arrays, strings, booleans, null,
  and integer numerals; fractional/exponent numerals and duplicate-free
  leading-zero checking of the full JSON grammar are outside the modelled
  fragment);
* `extractMetadata`, `extractCustomMetadata`, `isRootSpan`, `extractUsage`
  embed `SpanMetadataExtractor`;
* `determineSpanType`, `buildGeneration`, `buildTrace`, `buildSpanPayload`,
  `processSpan`, `exportSpans`, `shutdown` embed `LangfuseExporter`, with
  the external Langfuse client modelled as a record of possibly-failing
  submission calls (`Langfuse`), and thrown JavaScript exceptions modelled
  as `Except`.

Debug-only console logging (and the debug-only `flushAsync` call in
`export`, which affects no submission and no callback result) is not
modelled: it produces no observable value in the embedded state.
-/

/-- A scalar OpenTelemetry attribute value (string, boolean, or number).
Numbers are modelled as integers; the code only ever compares attribute
values against string literals and the boolean `true`. -/
inductive AttrValue where
  | str (s : String)
  | bool (b : Bool)
  | num (n : Int)
deriving DecidableEq

/-- JavaScript truthiness of an attribute value (`""`, `false` and `0` are
falsy, everything else truthy). -/
def attrTruthy : AttrValue → Bool
  | .str s => !(s == "")
  | .bool b => b
  | .num n => !(n == 0)

/-- An OpenTelemetry `ReadableSpan` as consumed by the exporter: span/trace
identifiers, an optional parent span id, a name, start/end times (already
in milliseconds, standing for `hrTimeToMilliseconds` of the hrtime pair),
and the attribute bag in insertion order. -/
structure Span where
  name : String
  spanId : String
  traceId : String
  parentSpanId : Option String
  startTime : Int
  endTime : Int
  attributes : List (String × AttrValue)

/-- Attribute lookup, `span.attributes[key]`.  OpenTelemetry attribute bags
have unique keys, so first-match lookup agrees with the JavaScript object
access. -/
def getAttr (attributes : List (String × AttrValue)) (key : String) : Option AttrValue :=
  (attributes.find? (fun kv => kv.1 == key)).map (fun kv => kv.2)

/-- A parsed JSON value, the result type of the modelled `JSON.parse`. -/
inductive Json where
  | null
  | bool (b : Bool)
  | num (n : Int)
  | str (s : String)
  | arr (elems : List Json)
  | obj (fields : List (String × Json))

/-- JavaScript truthiness of a JSON value: `null`, `false`, `0` and `""`
are falsy; objects and arrays are always truthy. -/
def jsTruthy : Json → Bool
  | .null => false
  | .bool b => b
  | .num n => !(n == 0)
  | .str s => !(s == "")
  | .arr _ => true
  | .obj _ => true

/-- JavaScript property access `j[key]` on a parsed JSON value: `none`
stands for `undefined`.  Non-objects have no own properties.  `JSON.parse`
keeps the last of duplicate keys, hence the reversed lookup. -/
def jsGetField (j : Json) (key : String) : Option Json :=
  match j with
  | .obj fields => ((fields.reverse).find? (fun kv => kv.1 == key)).map (fun kv => kv.2)
  | _ => none

/-- `x || fallback` where `x` is a possibly-undefined JSON field expected
to be numeric: a nonzero number is returned, anything else (undefined,
null, `0`, other falsy values) yields the fallback.  Non-numeric truthy
field values — which the `TokenUsage` interface excludes — are also sent
to the fallback. -/
def jsOrNum (j : Option Json) (fallback : Int) : Int :=
  match j with
  | some (.num n) => if n == 0 then fallback else n
  | _ => fallback

/-- JSON whitespace characters accepted by `JSON.parse`. -/
def wsChars : List Char := [' ', '\t', '\n', '\r']

/-- Whether a character is JSON whitespace. -/
def isWsChar (c : Char) : Bool :=
  wsChars.contains c

/-- Skip leading JSON whitespace. -/
def skipWs : List Char → List Char
  | [] => []
  | c :: cs => if isWsChar c then skipWs cs else c :: cs

/-- The table of two-character JSON string escapes, each escape letter
paired with the character it denotes. -/
def escTable : List (Char × Char) :=
  [('"', '"'), ('\\', '\\'), ('/', '/'), ('n', '\n'), ('t', '\t'),
   ('r', '\r'), ('b', Char.ofNat 8), ('f', Char.ofNat 12)]

/-- Escape resolution for a JSON string escape character. -/
def escChar? (c : Char) : Option Char :=
  (escTable.find? (fun e => e.1 == c)).map (fun e => e.2)

/-- Hexadecimal digit value, for `\uXXXX` escapes. -/
def hexVal? (c : Char) : Option Nat :=
  if c.isDigit then some (c.toNat - 48)
  else if 'a' ≤ c ∧ c ≤ 'f' then some (c.toNat - 87)
  else if 'A' ≤ c ∧ c ≤ 'F' then some (c.toNat - 55)
  else none

/-- Parse the body of a JSON string after the opening quote, returning the
content and the remaining input.  Unescaped control characters are
rejected, as in `JSON.parse`. -/
def parseStringBody : List Char → Option (List Char × List Char)
  | [] => none
  | '"' :: rest => some ([], rest)
  | '\\' :: 'u' :: h1 :: h2 :: h3 :: h4 :: rest =>
    match hexVal? h1, hexVal? h2, hexVal? h3, hexVal? h4 with
    | some a, some b, some c, some d =>
      match parseStringBody rest with
      | some (cs, r) => some (Char.ofNat (a * 4096 + b * 256 + c * 16 + d) :: cs, r)
      | none => none
    | _, _, _, _ => none
  | '\\' :: e :: rest =>
    match escChar? e with
    | some c =>
      match parseStringBody rest with
      | some (cs, r) => some (c :: cs, r)
      | none => none
    | none => none
  | c :: rest =>
    if c.toNat < 32 then none
    else
      match parseStringBody rest with
      | some (cs, r) => some (c :: cs, r)
      | none => none

/-- Parse a run of decimal digits into a natural number (accumulator
form), returning the value and remaining input. -/
def parseDigits : List Char → Nat → Nat × List Char
  | [], acc => (acc, [])
  | c :: rest, acc =>
    if c.isDigit then parseDigits rest (acc * 10 + (c.toNat - 48))
    else (acc, c :: rest)

/-- Parse a JSON integer numeral (digits after an optional minus handled
by the caller). -/
def parseNumBody : List Char → Option (Nat × List Char)
  | [] => none
  | c :: rest =>
    if c.isDigit then some (parseDigits rest (c.toNat - 48))
    else none

mutual

/-- Parse one JSON value (fuel-indexed recursive descent over the
character list).  Leading whitespace is skipped. -/
def parseVal : Nat → List Char → Option (Json × List Char)
  | 0, _ => none
  | Nat.succ fuel, cs =>
    match skipWs cs with
    | 'n' :: 'u' :: 'l' :: 'l' :: rest => some (.null, rest)
    | 't' :: 'r' :: 'u' :: 'e' :: rest => some (.bool true, rest)
    | 'f' :: 'a' :: 'l' :: 's' :: 'e' :: rest => some (.bool false, rest)
    | '"' :: rest =>
      match parseStringBody rest with
      | some (content, r) => some (.str (String.mk content), r)
      | none => none
    | '[' :: rest =>
      match skipWs rest with
      | ']' :: r2 => some (.arr [], r2)
      | other =>
        match parseElems fuel other with
        | some (vs, r2) => some (.arr vs, r2)
        | none => none
    | '{' :: rest =>
      match skipWs rest with
      | '}' :: r2 => some (.obj [], r2)
      | other =>
        match parseMembers fuel other with
        | some (fs, r2) => some (.obj fs, r2)
        | none => none
    | '-' :: rest =>
      match parseNumBody rest with
      | some (n, r) => some (.num (-(n : Int)), r)
      | none => none
    | c :: rest =>
      if c.isDigit then
        match parseNumBody (c :: rest) with
        | some (n, r) => some (.num (n : Int), r)
        | none => none
      else none
    | [] => none

/-- Parse a nonempty comma-separated list of array elements up to and
including the closing bracket. -/
def parseElems : Nat → List Char → Option (List Json × List Char)
  | 0, _ => none
  | Nat.succ fuel, cs =>
    match parseVal fuel cs with
    | some (v, r) =>
      match skipWs r with
      | ',' :: r2 =>
        match parseElems fuel r2 with
        | some (vs, r3) => some (v :: vs, r3)
        | none => none
      | ']' :: r2 => some ([v], r2)
      | _ => none
    | none => none

/-- Parse a nonempty comma-separated list of object members up to and
including the closing brace. -/
def parseMembers : Nat → List Char → Option (List (String × Json) × List Char)
  | 0, _ => none
  | Nat.succ fuel, cs =>
    match skipWs cs with
    | '"' :: r =>
      match parseStringBody r with
      | some (key, r2) =>
        match skipWs r2 with
        | ':' :: r3 =>
          match parseVal fuel r3 with
          | some (v, r4) =>
            match skipWs r4 with
            | ',' :: r5 =>
              match parseMembers fuel r5 with
              | some (fs, r6) => some ((String.mk key, v) :: fs, r6)
              | none => none
            | '}' :: r5 => some ([(String.mk key, v)], r5)
            | _ => none
          | none => none
        | _ => none
      | none => none
    | _ => none

end

/-- The modelled `JSON.parse`: parse one value and require that only
whitespace remains.  The fuel bound `2 * length + 2` dominates the
recursion depth of any input of this length. -/
def jsonParse (s : String) : Option Json :=
  match parseVal (2 * s.length + 2) s.data with
  | some (j, rest) =>
    match skipWs rest with
    | [] => some j
    | _ => none
  | none => none

/-- Pattern check for `key.startsWith(p)` over character lists: `leadsList
p l` is true iff `p` is an initial segment of `l`. -/
def leadsList : List Char → List Char → Bool
  | [], _ => true
  | p :: ps, cs =>
    match cs with
    | [] => false
    | c :: rest => p == c && leadsList ps rest

/-- Substring check for the JavaScript `String.prototype.includes`: scan
every suffix for the pattern.  The empty pattern is contained in every
string, as in JavaScript. -/
def hasSubList (sub : List Char) : List Char → Bool
  | [] => leadsList sub []
  | c :: rest => leadsList sub (c :: rest) || hasSubList sub rest

/-- `s.includes(sub)` on strings. -/
def hasSub (s sub : String) : Bool :=
  hasSubList sub.data s.data

/-- The reserved custom-metadata key namespace of the extractor. -/
def metadataKeyNs : String := "genkit:metadata:"

/-- `SpanMetadataExtractor.extractCustomMetadata`: every attribute whose
key starts with the reserved namespace contributes an entry keyed by the
suffix after it (the source's `key.replace('genkit:metadata:', '')`
removes the first occurrence, which under the `startsWith` guard is
exactly the leading one), value passed through unchanged, in bag order. -/
def extractCustomMetadata (attributes : List (String × AttrValue)) : List (String × AttrValue) :=
  attributes.filterMap fun kv =>
    if leadsList metadataKeyNs.data kv.1.data then
      some (String.mk (kv.1.data.drop metadataKeyNs.data.length), kv.2)
    else none

/-- The normalized metadata record produced by
`SpanMetadataExtractor.extractMetadata`.  Fields hold the raw attribute
values (the source's `as string` casts are compile-time only). -/
structure ExtractedMetadata where
  name : Option AttrValue
  path : Option AttrValue
  spanType : Option AttrValue
  input : Option AttrValue
  output : Option AttrValue
  state : Option AttrValue
  isRoot : Bool
  sessionId : Option AttrValue
  threadName : Option AttrValue
  userId : Option AttrValue
  metadata : List (String × AttrValue)

/-- The root-flag computation of `extractMetadata`:
`attributes['genkit:isRoot'] === 'true' || attributes['genkit:isRoot'] === true`. -/
def isRootAttr : Option AttrValue → Bool
  | some (.str s) => s == "true"
  | some (.bool b) => b
  | _ => false

/-- `SpanMetadataExtractor.extractMetadata`. -/
def extractMetadata (span : Span) : ExtractedMetadata :=
  let attributes := span.attributes
  { name := getAttr attributes "genkit:name"
    path := getAttr attributes "genkit:path"
    spanType := getAttr attributes "genkit:type"
    input := getAttr attributes "genkit:input"
    output := getAttr attributes "genkit:output"
    state := getAttr attributes "genkit:state"
    isRoot := isRootAttr (getAttr attributes "genkit:isRoot")
    sessionId := getAttr attributes "genkit:sessionId"
    threadName := getAttr attributes "genkit:threadName"
    userId := getAttr attributes "genkit:userId"
    metadata := extractCustomMetadata attributes }

/-- `SpanMetadataExtractor.isRootSpan`:
`attributes['genkit:isRoot'] === 'true'` — string comparison only. -/
def isRootSpan (span : Span) : Bool :=
  match getAttr span.attributes "genkit:isRoot" with
  | some (.str s) => s == "true"
  | _ => false

/-- Token usage record (`TokenUsage` interface). -/
structure TokenUsage where
  inputTokens : Int
  outputTokens : Int
  totalTokens : Int
deriving DecidableEq

/-- The argument string handed to `JSON.parse` for a given attribute
value (`JSON.parse` coerces non-string arguments to strings). -/
def attrToSource : AttrValue → String
  | .str s => s
  | .bool true => "true"
  | .bool false => "false"
  | .num n => toString n

/-- `SpanMetadataExtractor.extractUsage`: parse the `genkit:output`
attribute as JSON; if the result has a truthy `usage` property, produce
the token counts with `|| 0` defaults, computing `totalTokens` as the sum
of the other two when it is absent or zero; in every other case —
attribute missing or falsy, parse failure, or no truthy `usage` — return
nothing (thrown parse errors are caught and ignored in the source). -/
def extractUsage (span : Span) : Option TokenUsage :=
  match getAttr span.attributes "genkit:output" with
  | none => none
  | some output =>
    if !attrTruthy output then none
    else
      match jsonParse (attrToSource output) with
      | none => none
      | some parsed =>
        match jsGetField parsed "usage" with
        | none => none
        | some u =>
          if jsTruthy u then
            some { inputTokens := jsOrNum (jsGetField u "inputTokens") 0
                   outputTokens := jsOrNum (jsGetField u "outputTokens") 0
                   totalTokens := jsOrNum (jsGetField u "totalTokens")
                     (jsOrNum (jsGetField u "inputTokens") 0 + jsOrNum (jsGetField u "outputTokens") 0) }
          else none

/-- `metadata.spanType === lit` / `metadata.path === lit` style strict
string comparison on a raw (possibly absent) attribute value. -/
def avEq (v : Option AttrValue) (lit : String) : Bool :=
  match v with
  | some (.str s) => s == lit
  | _ => false

/-- `path?.includes(sub)` on a raw attribute value: absent yields
`undefined` (falsy).  A non-string attribute value would throw in
JavaScript; the classification attributes are strings, and the model
yields false there. -/
def avIncl (v : Option AttrValue) (sub : String) : Bool :=
  match v with
  | some (.str s) => hasSub s sub
  | _ => false

/-- `!span.parentSpanId || span.parentSpanId === '0000000000000000'`:
absent or empty parent id is falsy; the all-zero id is the sentinel for
"no parent". -/
def noParent : Option String → Bool
  | none => true
  | some s => s == "" || s == "0000000000000000"

/-- `LangfuseExporter.determineSpanType`: ordered first-match-wins rules
producing the observation kind as a string tag, exactly as in the source
(generation indicators, then trace indicators, then the tool sub-rule and
default, both yielding `"span"`). -/
def determineSpanType (span : Span) (metadata : ExtractedMetadata) : String :=
  let spanType := metadata.spanType
  let path := metadata.path
  let name := span.name
  if avEq spanType "model" || avIncl path "/model/" ||
     hasSub name "generate" || hasSub name "model" then
    "generation"
  else if metadata.isRoot || avEq spanType "flow" || avIncl path "/flow/" ||
     noParent span.parentSpanId then
    "trace"
  else if avEq spanType "tool" || avIncl path "/tool/" ||
     hasSub name "tool" || hasSub name "Tool" then
    "span"
  else
    "span"

/-- Attempt to match the regex `\/model\/([^\/]+)\/([^\/]+)` at the head
of the input, returning the two capture groups.  The greedy `[^\/]+`
classes cannot backtrack usefully (they can never consume a slash), so
take-while segments are exact. -/
def matchModelAt (cs : List Char) : Option (List Char × List Char) :=
  if leadsList "/model/".data cs then
    let afterTag := cs.drop 7
    let seg1 := afterTag.takeWhile (fun c => !(c == '/'))
    let rest1 := afterTag.dropWhile (fun c => !(c == '/'))
    if seg1.isEmpty then none
    else
      match rest1 with
      | '/' :: afterSlash =>
        let seg2 := afterSlash.takeWhile (fun c => !(c == '/'))
        if seg2.isEmpty then none else some (seg1, seg2)
      | _ => none
  else none

/-- Leftmost match of `\/model\/([^\/]+)\/([^\/]+)` in the input
(JavaScript `String.prototype.match` searches every position left to
right). -/
def findModelMatch : List Char → Option (List Char × List Char)
  | [] => none
  | c :: rest =>
    match matchModelAt (c :: rest) with
    | some groups => some groups
    | none => findModelMatch rest

/-- Attempt to match the regex `\/model\/([^\/]+)\/` (the provider
pattern — note the single capture group and trailing slash, with no
second segment required) at the head of the input. -/
def matchProviderAt (cs : List Char) : Option (List Char) :=
  if leadsList "/model/".data cs then
    let afterTag := cs.drop 7
    let seg1 := afterTag.takeWhile (fun c => !(c == '/'))
    let rest1 := afterTag.dropWhile (fun c => !(c == '/'))
    if seg1.isEmpty then none
    else
      match rest1 with
      | '/' :: _ => some seg1
      | _ => none
  else none

/-- Leftmost match of the provider pattern `\/model\/([^\/]+)\/`. -/
def findProviderMatch : List Char → Option (List Char)
  | [] => none
  | c :: rest =>
    match matchProviderAt (c :: rest) with
    | some group => some group
    | none => findProviderMatch rest

/-- `LangfuseExporter.extractModelFromPath`: absent or empty (falsy) path
yields `"unknown"`; otherwise the second capture group of the first match
of `\/model\/([^\/]+)\/([^\/]+)`, or `"unknown"` when there is none. -/
def extractModelFromPath : Option String → String
  | none => "unknown"
  | some path =>
    if path == "" then "unknown"
    else
      match findModelMatch path.data with
      | some groups => String.mk groups.2
      | none => "unknown"

/-- `LangfuseExporter.extractProviderFromPath`: absent or empty path
yields `"unknown"`; otherwise the capture group of the first match of
`\/model\/([^\/]+)\/`, or `"unknown"` when there is none. -/
def extractProviderFromPath : Option String → String
  | none => "unknown"
  | some path =>
    if path == "" then "unknown"
    else
      match findProviderMatch path.data with
      | some group => String.mk group
      | none => "unknown"

/-- View of a raw attribute value as the string the path helpers receive:
the extractor fields are `as string` casts, so only genuine strings reach
the regexes in the modelled executions. -/
def attrStr : Option AttrValue → Option String
  | some (.str s) => some s
  | _ => none

/-- Result of `LangfuseExporter.parseJSON`: either a successfully parsed
JSON value, or the argument returned unchanged (absent, non-string, empty
string, or a string that fails to parse). -/
inductive PValue where
  | json (j : Json)
  | raw (v : AttrValue)

/-- JavaScript truthiness of a `parseJSON` result. -/
def pvTruthy : PValue → Bool
  | .json j => jsTruthy j
  | .raw v => attrTruthy v

/-- Property access on a `parseJSON` result: only a parsed JSON object has
own properties; raw strings and other scalars yield `undefined`. -/
def pvGetField (pv : PValue) (key : String) : Option Json :=
  match pv with
  | .json j => jsGetField j key
  | .raw _ => none

/-- `LangfuseExporter.parseJSON`: falsy or non-string arguments are
returned unchanged; otherwise `JSON.parse` is attempted and a parse
failure falls back to the raw string. -/
def parseJSON : Option AttrValue → Option PValue
  | none => none
  | some (.str s) =>
    if s == "" then some (.raw (.str s))
    else
      match jsonParse s with
      | some j => some (.json j)
      | none => some (.raw (.str s))
  | some v => some (.raw v)

/-- `if (metadata.sessionId)`-style guard: keep an attribute value only
when truthy. -/
def truthyOpt : Option AttrValue → Option AttrValue
  | some v => if attrTruthy v then some v else none
  | none => none

/-- `span.parentSpanId && span.parentSpanId !== '0000000000000000'`:
the `parentObservationId` attached to generation and span payloads. -/
def parentObs : Option String → Option String
  | none => none
  | some s => if s == "" || s == "0000000000000000" then none else some s

/-- The nested `metadata` object of a generation payload. -/
structure GenerationMeta where
  genkit : Bool
  spanType : Option AttrValue
  path : Option AttrValue
  state : Option AttrValue
  provider : String
  genkitVersion : String
  parentSpanId : Option String

/-- The `usage` object of a generation payload: direct field mapping from
the decoded output's usage object, each member possibly `undefined`. -/
structure GenerationUsage where
  input : Option Json
  output : Option Json
  total : Option Json

/-- The generation payload assembled by `createGeneration`. -/
structure GenerationData where
  id : String
  traceId : String
  name : String
  model : String
  input : Option PValue
  output : Option PValue
  startTime : Int
  endTime : Int
  metadata : GenerationMeta
  parentObservationId : Option String
  usage : Option GenerationUsage
  totalCost : Option Int
  sessionId : Option AttrValue
  userId : Option AttrValue
  version : Option AttrValue

/-- The nested `metadata` object of a trace payload. -/
structure TraceMeta where
  spanType : Option AttrValue
  path : Option AttrValue
  state : Option AttrValue
  duration : Int
  genkit : Bool

/-- The trace payload assembled by `createTrace`. -/
structure TraceData where
  id : String
  name : String
  input : Option PValue
  output : Option PValue
  timestamp : Int
  metadata : TraceMeta
  sessionId : Option AttrValue
  userId : Option AttrValue

/-- The nested `metadata` object of a span payload. -/
structure SpanMeta where
  genkit : Bool
  spanType : Option AttrValue
  path : Option AttrValue
  state : Option AttrValue
  parentSpanId : Option String

/-- The span payload assembled by `createSpan`. -/
structure SpanPayload where
  id : String
  traceId : String
  name : String
  input : Option PValue
  output : Option PValue
  startTime : Int
  endTime : Int
  metadata : SpanMeta
  parentObservationId : Option String

/-- One record submitted to the backend client, tagged by the submission
call used. -/
inductive Submission where
  | generation (g : GenerationData)
  | trace (t : TraceData)
  | span (s : SpanPayload)

/-- The external Langfuse backend client at its interface boundary: three
kind-specific submission calls and two lifecycle calls, each able to throw
(modelled as `Except`). -/
structure Langfuse where
  generation : GenerationData → Except String Unit
  trace : TraceData → Except String Unit
  span : SpanPayload → Except String Unit
  shutdownAsync : Except String Unit
  flushAsync : Except String Unit

/-- `SpanData` (src/types.ts): the summary handed to a configured span
filter predicate. -/
structure SpanData where
  name : String
  spanType : Option String
  path : Option String
  isRoot : Option Bool

/-- `LangfuseConfig` (src/types.ts).  The two function-valued options are
the cost calculator (which may throw) and the span filter predicate. -/
structure LangfuseConfig where
  secretKey : String
  publicKey : String
  baseUrl : Option String
  debug : Option Bool
  flushAt : Option Int
  flushInterval : Option Int
  calculateCost : Option (String → TokenUsage → Except String Int)
  spanFilter : Option (SpanData → Bool)
  forceDevExport : Option Bool
  exportTimeoutMillis : Option Int
  maxQueueSize : Option Int

/-- The model name of a generation:
`metadata.name || this.extractModelFromPath(metadata.path)`. -/
def modelNameOf (metadata : ExtractedMetadata) : String :=
  match metadata.name with
  | some (.str s) => if s == "" then extractModelFromPath (attrStr metadata.path) else s
  | _ => extractModelFromPath (attrStr metadata.path)

/-- The `if (output && output.usage)` guard of `createGeneration`: the
decoded output must be truthy and carry a truthy `usage` property; the
property's value is returned. -/
def generationUsage (output : Option PValue) : Option Json :=
  match output with
  | none => none
  | some pv =>
    if pvTruthy pv then
      match pvGetField pv "usage" with
      | none => none
      | some u => if jsTruthy u then some u else none
    else none

/-- The payload assembly of `LangfuseExporter.createGeneration`: decode
input/output, resolve model name and provider, attach parent linkage,
usage fields when the decoded output has a truthy usage object, the
configured cost when the cost function is present and returns normally
(a thrown cost function is caught, logged, and leaves the cost unset),
and session/user/version fields when truthy.  `metadata.version` is never
produced by the extractor, so the version field is always absent. -/
def buildGeneration (config : LangfuseConfig) (span : Span) (metadata : ExtractedMetadata) :
    GenerationData :=
  let input := parseJSON metadata.input
  let output := parseJSON metadata.output
  let modelName := modelNameOf metadata
  let usageOpt : Option GenerationUsage :=
    match generationUsage output with
    | some u =>
      some { input := jsGetField u "inputTokens"
             output := jsGetField u "outputTokens"
             total := jsGetField u "totalTokens" }
    | none => none
  let costOpt : Option Int :=
    match generationUsage output with
    | some u =>
      match config.calculateCost with
      | some f =>
        match f modelName
            { inputTokens := jsOrNum (jsGetField u "inputTokens") 0
              outputTokens := jsOrNum (jsGetField u "outputTokens") 0
              totalTokens := jsOrNum (jsGetField u "totalTokens") 0 } with
        | .ok c => some c
        | .error _ => none
      | none => none
    | none => none
  { id := span.spanId
    traceId := span.traceId
    name := span.name
    model := modelName
    input := input
    output := output
    startTime := span.startTime
    endTime := span.endTime
    metadata :=
      { genkit := true
        spanType := metadata.spanType
        path := metadata.path
        state := metadata.state
        provider := extractProviderFromPath (attrStr metadata.path)
        genkitVersion := "1.x"
        parentSpanId := span.parentSpanId }
    parentObservationId := parentObs span.parentSpanId
    usage := usageOpt
    totalCost := costOpt
    sessionId := truthyOpt metadata.sessionId
    userId := truthyOpt metadata.userId
    version := none }

/-- `LangfuseExporter.createGeneration`: assemble the payload and submit
it with the client's `generation` call; a thrown submission error is
caught, logged, and rethrown. -/
def createGeneration (config : LangfuseConfig) (langfuse : Langfuse)
    (span : Span) (metadata : ExtractedMetadata) : Except String Submission :=
  let generationData := buildGeneration config span metadata
  match langfuse.generation generationData with
  | .ok _ => .ok (.generation generationData)
  | .error e => .error e

/-- The payload assembly of `LangfuseExporter.createTrace`. -/
def buildTrace (span : Span) (metadata : ExtractedMetadata) : TraceData :=
  { id := span.traceId
    name := span.name
    input := parseJSON metadata.input
    output := parseJSON metadata.output
    timestamp := span.startTime
    metadata :=
      { spanType := metadata.spanType
        path := metadata.path
        state := metadata.state
        duration := span.endTime - span.startTime
        genkit := true }
    sessionId := truthyOpt metadata.sessionId
    userId := truthyOpt metadata.userId }

/-- `LangfuseExporter.createTrace`: assemble the payload and submit it
with the client's `trace` call, rethrowing a submission error. -/
def createTrace (config : LangfuseConfig) (langfuse : Langfuse)
    (span : Span) (metadata : ExtractedMetadata) : Except String Submission :=
  let trace := buildTrace span metadata
  match langfuse.trace trace with
  | .ok _ => .ok (.trace trace)
  | .error e => .error e

/-- The payload assembly of `LangfuseExporter.createSpan`. -/
def buildSpanPayload (span : Span) (metadata : ExtractedMetadata) : SpanPayload :=
  { id := span.spanId
    traceId := span.traceId
    name := span.name
    input := parseJSON metadata.input
    output := parseJSON metadata.output
    startTime := span.startTime
    endTime := span.endTime
    metadata :=
      { genkit := true
        spanType := metadata.spanType
        path := metadata.path
        state := metadata.state
        parentSpanId := span.parentSpanId }
    parentObservationId := parentObs span.parentSpanId }

/-- `LangfuseExporter.createSpan`: assemble the payload and submit it with
the client's `span` call, rethrowing a submission error. -/
def createSpan (config : LangfuseConfig) (langfuse : Langfuse)
    (span : Span) (metadata : ExtractedMetadata) : Except String Submission :=
  let langfuseSpan := buildSpanPayload span metadata
  match langfuse.span langfuseSpan with
  | .ok _ => .ok (.span langfuseSpan)
  | .error e => .error e

/-- `LangfuseExporter.processSpan`: extract metadata, classify, and
dispatch on the kind tag.  A successful run yields the submission made
(or `none` on the unreachable default branch, which returns without
submitting); a thrown error from any stage propagates to the caller,
matching the source's catch-and-rethrow. -/
def processSpan (config : LangfuseConfig) (langfuse : Langfuse) (span : Span) :
    Except String (Option Submission) :=
  let metadata := extractMetadata span
  let spanType := determineSpanType span metadata
  if spanType == "generation" then
    (createGeneration config langfuse span metadata).map some
  else if spanType == "trace" then
    (createTrace config langfuse span metadata).map some
  else if spanType == "span" then
    (createSpan config langfuse span metadata).map some
  else
    .ok none

/-- The batch result delivered to the export callback
(`ExportResultCode` plus the optional error of a failed result). -/
inductive ExportResult where
  | success
  | failed (error : String)
deriving DecidableEq

/-- The per-span loop of `LangfuseExporter.export`: process each span in
batch order inside its own try/catch; a throwing span increments the
error count and is skipped, a normal span increments the success count
and contributes its submission.  Returns the submissions in order with
the two counters. -/
def exportLoop (config : LangfuseConfig) (langfuse : Langfuse) :
    List Span → List Submission × Nat × Nat
  | [] => ([], 0, 0)
  | span :: rest =>
    match processSpan config langfuse span with
    | .ok (some sub) =>
      let (subs, okCount, errCount) := exportLoop config langfuse rest
      (sub :: subs, okCount + 1, errCount)
    | .ok none =>
      let (subs, okCount, errCount) := exportLoop config langfuse rest
      (subs, okCount + 1, errCount)
    | .error _ =>
      let (subs, okCount, errCount) := exportLoop config langfuse rest
      (subs, okCount, errCount + 1)

/-- `LangfuseExporter.export`: run the per-span loop and invoke the result
callback.  Per-span errors are absorbed by the loop, and no statement
outside the per-span try/catch can throw in the modelled state, so the
callback always receives `SUCCESS`; the pair also carries the sequence of
backend submissions performed. -/
def exportSpans (config : LangfuseConfig) (langfuse : Langfuse) (spans : List Span) :
    ExportResult × List Submission :=
  let (subs, _okCount, _errCount) := exportLoop config langfuse spans
  (.success, subs)

/-- `LangfuseExporter.shutdown`: await the client's `shutdownAsync`; a
thrown error is caught, logged, and rethrown unchanged. -/
def shutdown (langfuse : Langfuse) : Except String Unit :=
  match langfuse.shutdownAsync with
  | .ok _ => .ok ()
  | .error e => .error e

/-- `LangfuseExporter.forceFlush`: await the client's `flushAsync`; a
thrown error is caught, logged, and rethrown unchanged. -/
def forceFlush (langfuse : Langfuse) : Except String Unit :=
  match langfuse.flushAsync with
  | .ok _ => .ok ()
  | .error e => .error e

/-! ### Concrete data used by the witness theorems -/

/-- A concrete span carrying both a model hint and a set root flag. -/
def wSpanModelRoot : Span :=
  { name := "myFlow"
    spanId := "s1"
    traceId := "t1"
    parentSpanId := none
    startTime := 0
    endTime := 1
    attributes := [("genkit:type", .str "model"), ("genkit:isRoot", .str "true")] }

/-- A concrete span whose parent id is the all-zero sentinel and which has
no model indicators. -/
def wSpanSentinelParent : Span :=
  { name := "step"
    spanId := "s2"
    traceId := "t2"
    parentSpanId := some "0000000000000000"
    startTime := 0
    endTime := 1
    attributes := [] }

/-- A concrete backend client whose shutdown call throws. -/
def wShutdownClient : Langfuse :=
  { generation := fun _ => .ok ()
    trace := fun _ => .ok ()
    span := fun _ => .ok ()
    shutdownAsync := .error "backend failure"
    flushAsync := .ok () }

/-- A concrete span whose root-flag attribute is the boolean `true`. -/
def wSpanBoolRoot : Span :=
  { name := "rooted"
    spanId := "s3"
    traceId := "t3"
    parentSpanId := none
    startTime := 0
    endTime := 1
    attributes := [("genkit:isRoot", .bool true)] }

/-- A concrete span carrying the usage output of the specification. -/
def wSpanUsage : Span :=
  { name := "gen"
    spanId := "u1"
    traceId := "tu1"
    parentSpanId := some "aaaaaaaaaaaaaaaa"
    startTime := 0
    endTime := 1
    attributes :=
      [("genkit:output", .str "\x7b\"usage\":\x7b\"inputTokens\":10,\"outputTokens\":5\x7d\x7d")] }

/-- A concrete span with no output attribute. -/
def wSpanNoOutput : Span :=
  { name := "gen"
    spanId := "u2"
    traceId := "tu2"
    parentSpanId := none
    startTime := 0
    endTime := 1
    attributes := [] }

/-- A concrete span whose output attribute is not valid JSON. -/
def wSpanBadJson : Span :=
  { name := "gen"
    spanId := "u3"
    traceId := "tu3"
    parentSpanId := none
    startTime := 0
    endTime := 1
    attributes := [("genkit:output", .str "not json")] }

/-- A concrete span whose output parses to an object without `usage`. -/
def wSpanNoUsage : Span :=
  { name := "gen"
    spanId := "u4"
    traceId := "tu4"
    parentSpanId := none
    startTime := 0
    endTime := 1
    attributes := [("genkit:output", .str "\x7b\"ok\":true\x7d")] }

/-- A configuration with no optional features set. -/
def wPlainConfig : LangfuseConfig :=
  { secretKey := "sk"
    publicKey := "pk"
    baseUrl := none
    debug := none
    flushAt := none
    flushInterval := none
    calculateCost := none
    spanFilter := none
    forceDevExport := none
    exportTimeoutMillis := none
    maxQueueSize := none }

/-- A span whose output decodes to an object with a falsy `usage` field. -/
def wSpanFalsyUsage : Span :=
  { name := "model-call"
    spanId := "g0"
    traceId := "tg0"
    parentSpanId := none
    startTime := 0
    endTime := 1
    attributes := [("genkit:output", .str "\x7b\"usage\":0\x7d")] }

/-- A span whose output carries a genuine usage object. -/
def wSpanGenUsage : Span :=
  { name := "model-call"
    spanId := "g1"
    traceId := "tg1"
    parentSpanId := none
    startTime := 0
    endTime := 1
    attributes :=
      [("genkit:output", .str "\x7b\"usage\":\x7b\"inputTokens\":7,\"outputTokens\":3\x7d\x7d")] }

/-- A configuration whose cost function always throws. -/
def wThrowingCostConfig : LangfuseConfig :=
  { secretKey := "sk"
    publicKey := "pk"
    baseUrl := none
    debug := none
    flushAt := none
    flushInterval := none
    calculateCost := some (fun _ _ => .error "cost failure")
    spanFilter := none
    forceDevExport := none
    exportTimeoutMillis := none
    maxQueueSize := none }

/-- A backend client that accepts every submission. -/
def wOkClient : Langfuse :=
  { generation := fun _ => .ok ()
    trace := fun _ => .ok ()
    span := fun _ => .ok ()
    shutdownAsync := .ok ()
    flushAsync := .ok () }

/-- A backend client that rejects exactly the trace named "bad". -/
def wFailingClient : Langfuse :=
  { generation := fun _ => .ok ()
    trace := fun t => if t.name == "bad" then .error "submit failure" else .ok ()
    span := fun _ => .ok ()
    shutdownAsync := .ok ()
    flushAsync := .ok () }

/-- A parentless span named "alpha" (classified as a trace). -/
def wSpanAlpha : Span :=
  { name := "alpha"
    spanId := "e1"
    traceId := "te"
    parentSpanId := none
    startTime := 0
    endTime := 1
    attributes := [] }

/-- A parentless span named "bad", whose submission the failing client
rejects. -/
def wSpanBad : Span :=
  { name := "bad"
    spanId := "e2"
    traceId := "te"
    parentSpanId := none
    startTime := 0
    endTime := 1
    attributes := [] }

/-- A parentless span named "beta" (classified as a trace). -/
def wSpanBeta : Span :=
  { name := "beta"
    spanId := "e3"
    traceId := "te"
    parentSpanId := none
    startTime := 0
    endTime := 1
    attributes := [] }

/-- C2: a span whose observation-type hint is `"model"` or whose path
contains `"/model/"` is classified `generation`, whatever its root flag
and parent id: the generation rule is the first rule checked. -/
theorem modelIndicators_classify_generation (span : Span)
    (h : avEq (extractMetadata span).spanType "model" = true ∨
         avIncl (extractMetadata span).path "/model/" = true) :
    determineSpanType span (extractMetadata span) = "generation" := by
  rcases h with h | h <;> simp [determineSpanType, h]

theorem modelIndicators_classify_generation_witness :
    (avEq (extractMetadata wSpanModelRoot).spanType "model" = true ∨
     avIncl (extractMetadata wSpanModelRoot).path "/model/" = true) ∧
    determineSpanType wSpanModelRoot (extractMetadata wSpanModelRoot) = "generation" :=
  ⟨Or.inl rfl, modelIndicators_classify_generation wSpanModelRoot (Or.inl rfl)⟩

/-- C3: a span with no parent (absent or all-zero sentinel) and no model
indicators (hint not `"model"`, path without `"/model/"`, name without
`"generate"` or `"model"`) is classified `trace`. -/
theorem parentless_without_model_indicators_classify_trace (span : Span)
    (hparent : span.parentSpanId = none ∨ span.parentSpanId = some "0000000000000000")
    (htype : avEq (extractMetadata span).spanType "model" = false)
    (hpath : avIncl (extractMetadata span).path "/model/" = false)
    (hgen : hasSub span.name "generate" = false)
    (hmodel : hasSub span.name "model" = false) :
    determineSpanType span (extractMetadata span) = "trace" := by
  rcases hparent with hp | hp <;>
    simp [determineSpanType, htype, hpath, hgen, hmodel, noParent, hp]

theorem parentless_without_model_indicators_classify_trace_witness :
    (wSpanSentinelParent.parentSpanId = none ∨
     wSpanSentinelParent.parentSpanId = some "0000000000000000") ∧
    avEq (extractMetadata wSpanSentinelParent).spanType "model" = false ∧
    avIncl (extractMetadata wSpanSentinelParent).path "/model/" = false ∧
    hasSub wSpanSentinelParent.name "generate" = false ∧
    hasSub wSpanSentinelParent.name "model" = false ∧
    determineSpanType wSpanSentinelParent (extractMetadata wSpanSentinelParent) = "trace" :=
  ⟨Or.inr rfl, rfl, rfl, rfl, rfl,
    parentless_without_model_indicators_classify_trace wSpanSentinelParent
      (Or.inr rfl) rfl rfl rfl rfl⟩

/-- C8: when the backend client's `shutdownAsync` throws, `shutdown`
rethrows that same error unchanged to its caller. -/
theorem shutdown_propagates_error (langfuse : Langfuse) (e : String)
    (h : langfuse.shutdownAsync = .error e) :
    shutdown langfuse = .error e := by
  simp [shutdown, h]

theorem shutdown_propagates_error_witness :
    wShutdownClient.shutdownAsync = Except.error "backend failure" ∧
    shutdown wShutdownClient = Except.error "backend failure" :=
  ⟨rfl, shutdown_propagates_error wShutdownClient "backend failure" rfl⟩

/-- C9: `isRootSpan` is true exactly when the root-flag attribute is the
literal string `"true"`, while the `isRoot` field of `extractMetadata`
also accepts the boolean `true`; on a span whose root flag is the boolean
`true` the two therefore disagree. -/
theorem isRootSpan_vs_extractMetadata_isRoot (span : Span) :
    (isRootSpan span = true ↔
      getAttr span.attributes "genkit:isRoot" = some (.str "true")) ∧
    ((extractMetadata span).isRoot = true ↔
      (getAttr span.attributes "genkit:isRoot" = some (.str "true") ∨
       getAttr span.attributes "genkit:isRoot" = some (.bool true))) ∧
    (getAttr span.attributes "genkit:isRoot" = some (.bool true) →
      isRootSpan span = false ∧ (extractMetadata span).isRoot = true) := by
  refine ⟨?_, ?_, ?_⟩ <;>
    rcases h : getAttr span.attributes "genkit:isRoot" with _ | (s | b | n) <;>
      simp [isRootSpan, extractMetadata, isRootAttr, h, beq_iff_eq]

theorem isRootSpan_vs_extractMetadata_isRoot_witness :
    isRootSpan wSpanBoolRoot = false ∧ (extractMetadata wSpanBoolRoot).isRoot = true :=
  (isRootSpan_vs_extractMetadata_isRoot wSpanBoolRoot).2.2 rfl

/-- C4: `extractUsage` on an output of `{"usage":{"inputTokens":10,
"outputTokens":5}}` yields tokens (10, 5, 15), the total computed as the
sum; on a missing output attribute, an output that is not valid JSON, or
an output parsing to a value without a `usage` field it yields nothing
(the source catches its own parse errors, so no error escapes). -/
theorem extractUsage_computes_total_and_absorbs_errors :
    (∀ span : Span,
      getAttr span.attributes "genkit:output" =
        some (.str "\x7b\"usage\":\x7b\"inputTokens\":10,\"outputTokens\":5\x7d\x7d") →
      extractUsage span = some ⟨10, 5, 15⟩) ∧
    (∀ span : Span,
      getAttr span.attributes "genkit:output" = none → extractUsage span = none) ∧
    (∀ (span : Span) (s : String),
      getAttr span.attributes "genkit:output" = some (.str s) → jsonParse s = none →
      extractUsage span = none) ∧
    (∀ (span : Span) (s : String) (j : Json),
      getAttr span.attributes "genkit:output" = some (.str s) → jsonParse s = some j →
      jsGetField j "usage" = none → extractUsage span = none) := by
  refine ⟨?_, ?_, ?_, ?_⟩
  · intro span h
    unfold extractUsage
    rw [h]
    rfl
  · intro span h
    unfold extractUsage
    rw [h]
  · intro span s h hp
    unfold extractUsage
    rw [h]
    simp [attrToSource, hp]
  · intro span s j h hp hu
    unfold extractUsage
    rw [h]
    simp [attrToSource, hp, hu]

theorem extractUsage_computes_total_and_absorbs_errors_witness :
    extractUsage wSpanUsage = some ⟨10, 5, 15⟩ ∧
    extractUsage wSpanNoOutput = none ∧
    extractUsage wSpanBadJson = none ∧
    extractUsage wSpanNoUsage = none :=
  ⟨extractUsage_computes_total_and_absorbs_errors.1 wSpanUsage rfl,
   extractUsage_computes_total_and_absorbs_errors.2.1 wSpanNoOutput rfl,
   extractUsage_computes_total_and_absorbs_errors.2.2.1 wSpanBadJson "not json" rfl rfl,
   extractUsage_computes_total_and_absorbs_errors.2.2.2 wSpanNoUsage "\x7b\"ok\":true\x7d"
     (.obj [("ok", .bool true)]) rfl rfl rfl⟩

theorem strMk_data (s : String) : String.mk s.data = s := by
  cases s
  rfl

theorem leadsList_iff (p l : List Char) : leadsList p l = true ↔ ∃ t, l = p ++ t := by
  induction p generalizing l with
  | nil =>
    simp [leadsList]
  | cons a as ih =>
    cases l with
    | nil => simp [leadsList]
    | cons b bs =>
      rw [leadsList]
      simp only [Bool.and_eq_true, beq_iff_eq, ih]
      constructor
      · rintro ⟨rfl, t, rfl⟩
        exact ⟨t, rfl⟩
      · rintro ⟨t, h⟩
        injection h with h1 h2
        exact ⟨h1.symm, t, h2⟩

/-- C5: custom-metadata extraction keeps exactly the attributes whose key
starts with the reserved prefix `genkit:metadata:` — an entry appears for
`k` with value `v` precisely when the bag holds `genkit:metadata:k ↦ v` —
and on the bag of the specification it yields exactly `a ↦ "x", b ↦ "y"`. -/
theorem extractCustomMetadata_exactly_reserved_keys :
    (∀ (attributes : List (String × AttrValue)) (k : String) (v : AttrValue),
      (k, v) ∈ extractCustomMetadata attributes ↔ (metadataKeyNs ++ k, v) ∈ attributes) ∧
    extractCustomMetadata
      [("genkit:metadata:a", .str "x"), ("genkit:metadata:b", .str "y"),
       ("other:k", .str "z")] =
      [("a", .str "x"), ("b", .str "y")] := by
  constructor
  · intro attributes k v
    unfold extractCustomMetadata
    rw [List.mem_filterMap]
    constructor
    · rintro ⟨⟨k0, v0⟩, hmem, hf⟩
      simp only at hf
      split at hf
      case isTrue hl =>
        obtain ⟨t, ht⟩ := (leadsList_iff _ _).mp hl
        simp only [Option.some.injEq, Prod.mk.injEq] at hf
        obtain ⟨hk, hv⟩ := hf
        subst hv
        have hkd : k.data = t := by
          rw [← hk, ht, List.drop_left]
        have : k0 = metadataKeyNs ++ k := by
          apply String.ext
          rw [String.data_append, ht, hkd]
        rw [← this]
        exact hmem
      case isFalse => exact absurd hf (by simp)
    · intro hmem
      refine ⟨(metadataKeyNs ++ k, v), hmem, ?_⟩
      have hl : leadsList metadataKeyNs.data (metadataKeyNs ++ k).data = true :=
        (leadsList_iff _ _).mpr ⟨k.data, by rw [String.data_append]⟩
      simp only [hl, if_true]
      rw [String.data_append, List.drop_left, strMk_data]
  · rfl

theorem extractCustomMetadata_exactly_reserved_keys_witness :
    ("a", AttrValue.str "x") ∈
      extractCustomMetadata
        [("genkit:metadata:a", .str "x"), ("genkit:metadata:b", .str "y"),
         ("other:k", .str "z")] :=
  (extractCustomMetadata_exactly_reserved_keys.1 _ "a" (.str "x")).mpr
    (by simp [metadataKeyNs])

/-- C6 counterexample: the path `/model/openai/` does not match the
two-segment pattern `/model/<provider>/<model>` (model extraction yields
"unknown"), yet provider extraction — which uses its own one-segment
pattern `\/model\/([^\/]+)\/` — yields "openai", not "unknown".  This
refutes the claim that an unmatched path yields "unknown" for both. -/
theorem pathPattern_unmatched_counterexample :
    findModelMatch ("/model/openai/").data = none ∧
    extractModelFromPath (some "/model/openai/") = "unknown" ∧
    extractProviderFromPath (some "/model/openai/") = "openai" :=
  ⟨rfl, rfl, rfl⟩

/-- C6 amended: model extraction from `/model/openai/gpt-4-turbo` yields
"gpt-4-turbo" and provider extraction "openai"; an absent path yields
"unknown" for both; and each extraction yields "unknown" whenever its own
pattern (two segments for the model, one segment with a trailing slash for
the provider) has no match in the path. -/
theorem pathPattern_extraction (p : String) :
    extractModelFromPath (some "/model/openai/gpt-4-turbo") = "gpt-4-turbo" ∧
    extractProviderFromPath (some "/model/openai/gpt-4-turbo") = "openai" ∧
    extractModelFromPath none = "unknown" ∧
    extractProviderFromPath none = "unknown" ∧
    (findModelMatch p.data = none → extractModelFromPath (some p) = "unknown") ∧
    (findProviderMatch p.data = none → extractProviderFromPath (some p) = "unknown") := by
  refine ⟨rfl, rfl, rfl, rfl, ?_, ?_⟩
  · intro h
    simp [extractModelFromPath, h]
  · intro h
    simp [extractProviderFromPath, h]

theorem pathPattern_extraction_witness :
    findModelMatch ("no-model-here").data = none ∧
    extractModelFromPath (some "no-model-here") = "unknown" ∧
    findProviderMatch ("no-model-here").data = none ∧
    extractProviderFromPath (some "no-model-here") = "unknown" :=
  ⟨rfl, (pathPattern_extraction "no-model-here").2.2.2.2.1 rfl,
   rfl, (pathPattern_extraction "no-model-here").2.2.2.2.2 rfl⟩

/-- C7 counterexample: a generation payload built from a span whose
decoded output object does contain a `usage` field (with value `0`) has
no usage fields populated — the source guards on the truthiness of
`output.usage`, not on mere presence of the field, so the claimed
"iff the decoded output object contains a usage field" fails. -/
theorem generation_usage_presence_counterexample :
    parseJSON (extractMetadata wSpanFalsyUsage).output =
      some (.json (.obj [("usage", .num 0)])) ∧
    pvGetField (.json (.obj [("usage", .num 0)])) "usage" = some (.num 0) ∧
    (buildGeneration wPlainConfig wSpanFalsyUsage (extractMetadata wSpanFalsyUsage)).usage =
      none :=
  ⟨rfl, rfl, rfl⟩

theorem generationUsage_isSome (out : Option PValue) :
    (generationUsage out).isSome = true ↔
      ∃ pv u, out = some pv ∧ pvTruthy pv = true ∧
        pvGetField pv "usage" = some u ∧ jsTruthy u = true := by
  cases out with
  | none => simp [generationUsage]
  | some pv =>
    rcases ht : pvTruthy pv with _ | _
    · simp [generationUsage, ht]
    · cases hf : pvGetField pv "usage" with
      | none => simp [generationUsage, ht, hf]
      | some u =>
        rcases hu : jsTruthy u with _ | _
        · simp [generationUsage, ht, hf, hu]
        · simp [generationUsage, ht, hf, hu]

/-- C7 amended: the usage fields of a generation payload are populated iff
the decoded output is truthy and carries a truthy `usage` property; a
configured cost function that throws on every invocation leaves the cost
unset; and when the backend accepts the payload, the generation record is
still submitted, whatever the cost function did. -/
theorem generation_usage_truthiness_and_cost_isolation
    (config : LangfuseConfig) (langfuse : Langfuse)
    (span : Span) (metadata : ExtractedMetadata) :
    ((buildGeneration config span metadata).usage.isSome = true ↔
      ∃ pv u, parseJSON metadata.output = some pv ∧ pvTruthy pv = true ∧
        pvGetField pv "usage" = some u ∧ jsTruthy u = true) ∧
    (∀ f : String → TokenUsage → Except String Int,
      config.calculateCost = some f →
      (∀ name usage, ∃ e, f name usage = Except.error e) →
      (buildGeneration config span metadata).totalCost = none) ∧
    (langfuse.generation (buildGeneration config span metadata) = .ok () →
      createGeneration config langfuse span metadata =
        .ok (.generation (buildGeneration config span metadata))) := by
  refine ⟨?_, ?_, ?_⟩
  · have hb : (buildGeneration config span metadata).usage.isSome =
        (generationUsage (parseJSON metadata.output)).isSome := by
      cases hg : generationUsage (parseJSON metadata.output) <;>
        simp [buildGeneration, hg]
    rw [hb]
    exact generationUsage_isSome _
  · intro f hf hthrow
    cases hg : generationUsage (parseJSON metadata.output) with
    | none => simp [buildGeneration, hg]
    | some u =>
      rcases hthrow (modelNameOf metadata)
          ⟨jsOrNum (jsGetField u "inputTokens") 0,
           jsOrNum (jsGetField u "outputTokens") 0,
           jsOrNum (jsGetField u "totalTokens") 0⟩ with ⟨e, he⟩
      simp [buildGeneration, hg, hf, he]
  · intro hok
    simp [createGeneration, hok]

theorem generation_usage_truthiness_and_cost_isolation_witness :
    (buildGeneration wThrowingCostConfig wSpanGenUsage (extractMetadata wSpanGenUsage)).usage.isSome =
      true ∧
    (buildGeneration wThrowingCostConfig wSpanGenUsage (extractMetadata wSpanGenUsage)).totalCost =
      none ∧
    createGeneration wThrowingCostConfig wOkClient wSpanGenUsage (extractMetadata wSpanGenUsage) =
      .ok (.generation
        (buildGeneration wThrowingCostConfig wSpanGenUsage (extractMetadata wSpanGenUsage))) :=
  ⟨(generation_usage_truthiness_and_cost_isolation wThrowingCostConfig wOkClient
      wSpanGenUsage (extractMetadata wSpanGenUsage)).1.mpr
      ⟨.json (.obj [("usage", .obj [("inputTokens", .num 7), ("outputTokens", .num 3)])]),
       .obj [("inputTokens", .num 7), ("outputTokens", .num 3)], rfl, rfl, rfl, rfl⟩,
   (generation_usage_truthiness_and_cost_isolation wThrowingCostConfig wOkClient
      wSpanGenUsage (extractMetadata wSpanGenUsage)).2.1
      (fun _ _ => .error "cost failure") rfl (fun _ _ => ⟨"cost failure", rfl⟩),
   (generation_usage_truthiness_and_cost_isolation wThrowingCostConfig wOkClient
      wSpanGenUsage (extractMetadata wSpanGenUsage)).2.2 rfl⟩

theorem exportLoop_append (config : LangfuseConfig) (langfuse : Langfuse)
    (l1 l2 : List Span) :
    (exportLoop config langfuse (l1 ++ l2)).1 =
      (exportLoop config langfuse l1).1 ++ (exportLoop config langfuse l2).1 := by
  induction l1 with
  | nil => simp [exportLoop]
  | cons s rest ih =>
    cases h : processSpan config langfuse s with
    | ok osub => cases osub <;> simp [exportLoop, h, ih]
    | error e => simp [exportLoop, h, ih]

theorem exportLoop_length_all_ok (config : LangfuseConfig) (langfuse : Langfuse)
    (l : List Span)
    (h : ∀ s ∈ l, ∃ sub, processSpan config langfuse s = .ok (some sub)) :
    (exportLoop config langfuse l).1.length = l.length := by
  induction l with
  | nil => simp [exportLoop]
  | cons s rest ih =>
    obtain ⟨sub, hs⟩ := h s (List.mem_cons_self s rest)
    have hrest := ih (fun x hx => h x (List.mem_cons_of_mem s hx))
    simp [exportLoop, hs, hrest]

/-- C1: when exactly one interior span of a batch throws during processing
(here: its backend submission fails) and every other span processes to
exactly one submission, the export callback still receives a successful
batch result, the failing span is skipped, and the batch performs exactly
N − 1 backend submissions. -/
theorem export_skips_failing_span_and_succeeds
    (config : LangfuseConfig) (langfuse : Langfuse)
    (l1 l2 : List Span) (bad : Span)
    (h1 : l1 ≠ []) (h2 : l2 ≠ [])
    (hok : ∀ s ∈ l1 ++ l2, ∃ sub, processSpan config langfuse s = .ok (some sub))
    (hbad : ∃ e, processSpan config langfuse bad = .error e) :
    (exportSpans config langfuse (l1 ++ bad :: l2)).1 = .success ∧
    (exportSpans config langfuse (l1 ++ bad :: l2)).2.length =
      (l1 ++ bad :: l2).length - 1 := by
  obtain ⟨e, he⟩ := hbad
  refine ⟨rfl, ?_⟩
  have hsubs : (exportSpans config langfuse (l1 ++ bad :: l2)).2 =
      (exportLoop config langfuse (l1 ++ bad :: l2)).1 := rfl
  have hbadcons : (exportLoop config langfuse (bad :: l2)).1 =
      (exportLoop config langfuse l2).1 := by
    simp [exportLoop, he]
  have hlen1 := exportLoop_length_all_ok config langfuse l1
    (fun s hs => hok s (List.mem_append_left l2 hs))
  have hlen2 := exportLoop_length_all_ok config langfuse l2
    (fun s hs => hok s (List.mem_append_right l1 hs))
  rw [hsubs, exportLoop_append, hbadcons, List.length_append, hlen1, hlen2,
    List.length_append, List.length_cons]
  omega

theorem export_skips_failing_span_and_succeeds_witness :
    ([wSpanAlpha] ≠ ([] : List Span)) ∧ ([wSpanBeta] ≠ ([] : List Span)) ∧
    (∀ s ∈ [wSpanAlpha] ++ [wSpanBeta],
      ∃ sub, processSpan wPlainConfig wFailingClient s = .ok (some sub)) ∧
    (∃ e, processSpan wPlainConfig wFailingClient wSpanBad = .error e) ∧
    (exportSpans wPlainConfig wFailingClient ([wSpanAlpha] ++ wSpanBad :: [wSpanBeta])).1 =
      .success ∧
    (exportSpans wPlainConfig wFailingClient ([wSpanAlpha] ++ wSpanBad :: [wSpanBeta])).2.length =
      ([wSpanAlpha] ++ wSpanBad :: [wSpanBeta]).length - 1 := by
  have hok : ∀ s ∈ [wSpanAlpha] ++ [wSpanBeta],
      ∃ sub, processSpan wPlainConfig wFailingClient s = .ok (some sub) := by
    intro s hs
    simp only [List.cons_append, List.nil_append, List.mem_cons,
      List.not_mem_nil, or_false] at hs
    rcases hs with rfl | rfl
    · exact ⟨_, rfl⟩
    · exact ⟨_, rfl⟩
  have hmain := export_skips_failing_span_and_succeeds wPlainConfig wFailingClient
    [wSpanAlpha] [wSpanBeta] wSpanBad (by simp) (by simp) hok ⟨"submit failure", rfl⟩
  exact ⟨by simp, by simp, hok, ⟨"submit failure", rfl⟩, hmain.1, hmain.2⟩

theorem buildGeneration_calculateCost_congr (c1 c2 : LangfuseConfig)
    (h : c1.calculateCost = c2.calculateCost) (span : Span)
    (metadata : ExtractedMetadata) :
    buildGeneration c1 span metadata = buildGeneration c2 span metadata := by
  unfold buildGeneration
  rw [h]

theorem processSpan_calculateCost_congr (c1 c2 : LangfuseConfig)
    (h : c1.calculateCost = c2.calculateCost) (langfuse : Langfuse) (s : Span) :
    processSpan c1 langfuse s = processSpan c2 langfuse s := by
  simp only [processSpan, createGeneration, createTrace, createSpan]
  rw [buildGeneration_calculateCost_congr c1 c2 h s (extractMetadata s)]

theorem exportLoop_calculateCost_congr (c1 c2 : LangfuseConfig)
    (h : c1.calculateCost = c2.calculateCost) (langfuse : Langfuse)
    (l : List Span) :
    exportLoop c1 langfuse l = exportLoop c2 langfuse l := by
  induction l with
  | nil => rfl
  | cons s rest ih =>
    simp only [exportLoop, processSpan_calculateCost_congr c1 c2 h langfuse s, ih]

/-- C10: the exporter never consults the configured span filter — two
configurations differing only in `spanFilter` produce the identical
callback result and the identical sequence of backend submissions on
every batch. -/
theorem spanFilter_never_consulted (config : LangfuseConfig)
    (filt : Option (SpanData → Bool)) (langfuse : Langfuse) (spans : List Span) :
    exportSpans { config with spanFilter := filt } langfuse spans =
      exportSpans config langfuse spans := by
  have h : ({ config with spanFilter := filt } : LangfuseConfig).calculateCost =
      config.calculateCost := by
    cases config
    rfl
  simp only [exportSpans]
  rw [exportLoop_calculateCost_congr _ _ h]
